import Mathlib

/-!
Verification of the `prio` LLM JNI bridge (`llm-test/app/src/main/cpp/llama_jni.cpp`)
against its natural-language specification.

The C++ core is shallowly embedded below.  Conventions:

* C++ `std::string` values are modelled as Lean `String` (a structure holding a
  `List Char`); `std::string::find` / `substr` are modelled character-wise,
  which coincides with the byte-wise C++ behaviour on the ASCII literals used
  throughout the source.
* The `float` confidences of the classifier are all exact multiples of 0.05 lying in
  [0, 1].  They are modelled as naturals counting hundredths ("cents"): 0.85f
  becomes 85.  All float comparisons performed by the source (`> 0.5f`,
  `> 0.7f`, `> 0.8f`, `std::max`) coincide with the corresponding comparisons
  on cents, because equal two-decimal literals parse to identical floats and
  distinct ones differ by at least 0.05, far above float32 rounding error.
* JNI handles (`jlong`, with 0 the failure sentinel) are modelled as
  `Option LlamaContext`, `none` standing for the 0 handle.
* Wall-clock sleeping and time measurement are not modelled; the *computed*
  delay / token counts are.
-/

/-- ASCII lowercasing of one character, as `std::tolower` behaves in the "C"
locale on the ASCII inputs the bridge receives (code points 65-90 map to
97-122, everything else is fixed). -/
def asciiLower (c : Char) : Char :=
  if 65 ≤ c.toNat ∧ c.toNat ≤ 90 then Char.ofNat (c.toNat + 32) else c

/-- Embeds `stub::to_lower` (llama_jni.cpp lines 128-134): lowercase every
character of the string. -/
def to_lower (s : String) : String := ⟨s.data.map asciiLower⟩

/-- First index at which `pat` occurs in the haystack, or `none`; embeds
`std::string::find` (npos becomes `none`). -/
def firstIdxAux (pat : List Char) : List Char → Option Nat
  | [] => if pat = [] then some 0 else none
  | c :: rest =>
    if pat.isPrefixOf (c :: rest) then some 0
    else (firstIdxAux pat rest).map (fun n => n + 1)

/-- `std::string::find` on strings: index of the first occurrence of `pat` in
`s`, `none` for npos. -/
def strFind (s pat : String) : Option Nat := firstIdxAux pat.data s.data

/-- `std::string::substr(n)`: the suffix of `s` from character index `n`. -/
def strDrop (s : String) (n : Nat) : String := ⟨s.data.drop n⟩

/-- Embeds `stub::contains` (lines 136-138): lowercase the text, then search
for the pattern literal. -/
def contains (text pat : String) : Bool := (strFind (to_lower text) pat).isSome

/-- Embeds `stub::URGENT_PATTERNS` (lines 84-94); confidences in cents. -/
def URGENT_PATTERNS : List (String × Nat) :=
  [(("urgent"), 85), (("asap"), 80), (("immediately"), 90),
   (("deadline today"), 95), (("due today"), 90), (("emergency"), 95),
   (("critical"), 85), (("server down"), 95), (("client waiting"), 85)]

/-- Embeds `stub::IMPORTANT_PATTERNS` (lines 96-106). -/
def IMPORTANT_PATTERNS : List (String × Nat) :=
  [(("plan"), 80), (("strategy"), 85), (("goal"), 80), (("learn"), 75),
   (("health"), 80), (("exercise"), 75), (("relationship"), 80),
   (("career"), 85), (("quarterly"), 80)]

/-- Embeds `stub::DELEGATE_PATTERNS` (lines 108-116). -/
def DELEGATE_PATTERNS : List (String × Nat) :=
  [(("routine"), 75), (("order supplies"), 80), (("schedule meeting"), 70),
   (("file"), 65), (("organize"), 65), (("survey"), 70), (("report"), 65)]

/-- Embeds `stub::ELIMINATE_PATTERNS` (lines 118-126). -/
def ELIMINATE_PATTERNS : List (String × Nat) :=
  [(("social media"), 90), (("youtube"), 80), (("browse"), 75),
   (("scroll"), 85), (("optional"), 70), (("someday"), 75), (("maybe"), 65)]

/-- One pattern-scan loop of `classify_eisenhower` (lines 149-171): the score
starts at 0 and takes the maximum confidence over the matching patterns. -/
def maxScore (pats : List (String × Nat)) (text : String) : Nat :=
  pats.foldl (fun acc p => if contains text p.1 then max acc p.2 else acc) 0

/-- The `urgent_score` computed by `classify_eisenhower` on input `t` (the
source lowercases the input once, and `contains` lowercases again). -/
def urgentScore (t : String) : Nat := maxScore URGENT_PATTERNS (to_lower t)

/-- The `important_score` of `classify_eisenhower`. -/
def importantScore (t : String) : Nat := maxScore IMPORTANT_PATTERNS (to_lower t)

/-- The `delegate_score` of `classify_eisenhower`. -/
def delegateScore (t : String) : Nat := maxScore DELEGATE_PATTERNS (to_lower t)

/-- The `eliminate_score` of `classify_eisenhower`. -/
def eliminateScore (t : String) : Nat := maxScore ELIMINATE_PATTERNS (to_lower t)

/-- `bool is_urgent = urgent_score > 0.5f` (line 178). -/
def is_urgent (t : String) : Bool := decide (50 < urgentScore t)

/-- `bool is_important = important_score > 0.5f || urgent_score > 0.8f`
(line 179). -/
def is_important (t : String) : Bool :=
  decide (50 < importantScore t) || decide (80 < urgentScore t)

/-- The structured verdict assembled by `classify_eisenhower` before JSON
serialization: quadrant label, confidence in cents, reasoning text. -/
structure Verdict where
  quadrant : String
  confidence : Nat
  reasoning : String
deriving DecidableEq

/-- Embeds the quadrant-resolution chain of `classify_eisenhower`
(lines 173-206). -/
def classifyV (task_text : String) : Verdict :=
  if 70 < eliminateScore task_text then
    ⟨("ELIMINATE"), eliminateScore task_text,
     ("Task appears to be low-value or time-wasting activity")⟩
  else if is_urgent task_text && is_important task_text then
    ⟨("DO"), max (urgentScore task_text) (importantScore task_text),
     ("Task is both urgent and important - requires immediate attention")⟩
  else if !(is_urgent task_text) && is_important task_text then
    ⟨("SCHEDULE"), importantScore task_text,
     ("Task is important but not time-sensitive - schedule for focused work")⟩
  else if is_urgent task_text && !(is_important task_text) then
    ⟨("DELEGATE"), max (urgentScore task_text) (delegateScore task_text),
     ("Task is urgent but not personally important - consider delegation")⟩
  else if 50 < delegateScore task_text then
    ⟨("DELEGATE"), delegateScore task_text,
     ("Routine task that can be handled by others")⟩
  else
    ⟨("SCHEDULE"), 60, ("Task importance unclear - scheduling for review")⟩

/-- Rendering of the confidence by `std::fixed << std::setprecision(2)` for a
value in [0, 1] held in cents: two decimal digits. -/
def renderConf (c : Nat) : String :=
  if c = 100 then ("1.00")
  else ("0.") ++ String.singleton (Nat.digitChar (c / 10))
       ++ String.singleton (Nat.digitChar (c % 10))

/-- The JSON serialization of a verdict performed at lines 208-213. -/
def renderVerdict (v : Verdict) : String :=
  ("\x7b\"quadrant\": \"") ++ v.quadrant ++ ("\", \"confidence\": ")
    ++ renderConf v.confidence ++ (", \"reasoning\": \"") ++ v.reasoning
    ++ ("\"\x7d")

/-- Embeds `stub::classify_eisenhower` (lines 140-214): resolve the verdict,
then serialize it as JSON. -/
def classify_eisenhower (task_text : String) : String :=
  renderVerdict (classifyV task_text)

/-- `stub::SIMULATED_MODEL_SIZE` (line 73): 2.4 GB. -/
def SIMULATED_MODEL_SIZE : Nat := 2400000000

/-- `stub::SIMULATED_TOKENS_PER_SEC` (line 74). -/
def SIMULATED_TOKENS_PER_SEC : Nat := 18

/-- `stub::SIMULATED_LOAD_TIME_MS` (line 75). -/
def SIMULATED_LOAD_TIME_MS : Nat := 3500

/-- Embeds `stub::simulate_delay` (lines 216-220): the number of milliseconds
slept, `(tokens * 1000) / SIMULATED_TOKENS_PER_SEC` in integer arithmetic. -/
def simulate_delay_ms (tokens : Nat) : Nat :=
  (tokens * 1000) / SIMULATED_TOKENS_PER_SEC

/-- The `LlamaContext` wrapper (lines 37-63) as observable through the JNI
accessors.  In stub builds (`LLAMA_AVAILABLE` unset) the native `model` and
`ctx` pointers are never allocated, so they are omitted here; the mutex only
serializes calls and has no effect on the values computed. -/
structure LlamaContext where
  is_stub : Bool
  load_time_ms : Nat
  last_inference_time_ms : Nat
  last_tokens_generated : Nat
  memory_usage_bytes : Nat
deriving DecidableEq

/-- Embeds the stub branch of `nativeLoadModel` (lines 248-296, with
`LLAMA_AVAILABLE` unset): the path is read into `path` but never checked for
readability; the loader sleeps, marks the wrapper as a stub, records the fixed
memory footprint, and unconditionally returns the (non-zero) wrapper pointer.
`pathReadable` records whether the supplied path is a readable file — the
source ignores it — and `elapsedMs` is the measured wall-clock load time
stored on the wrapper.  `none` models the 0 sentinel handle, never produced
here. -/
def nativeLoadModelStub (pathReadable : Bool) (elapsedMs : Nat) :
    Option LlamaContext :=
  some { is_stub := true
         load_time_ms := elapsedMs
         last_inference_time_ms := 0
         last_tokens_generated := 0
         memory_usage_bytes := SIMULATED_MODEL_SIZE }

/-- The fixed fallback JSON emitted at line 388 when a classification prompt
has no `Task:` marker. -/
def fallbackJson : String :=
  ("\x7b\"quadrant\": \"SCHEDULE\", \"confidence\": 0.5, \"reasoning\": \"Unable to parse task\"\x7d")

/-- The fixed generic response emitted at line 393. -/
def genericResponse : String :=
  ("This is a stub response. In production, this would be generated by Phi-3-mini.")

/-- The classification-marker test at lines 378-379: the prompt contains
`Eisenhower` or `quadrant`, case-sensitively (`promptCpp.find`, no
lowercasing). -/
def containsMarker (promptCpp : String) : Bool :=
  (strFind promptCpp ("Eisenhower")).isSome
    || (strFind promptCpp ("quadrant")).isSome

/-- Result of a stub-mode generation: the produced text and the reported
token count. -/
structure StubGenResult where
  text : String
  tokens : Nat
deriving DecidableEq

/-- Embeds the stub branch of `nativeGenerate` (lines 374-398): on a
classification-marker prompt, find the first occurrence of `Task:`, classify
the suffix after it (`substr(task_start + 5)`) and report 50 tokens; with no
`Task:` marker return the fixed fallback JSON and 30 tokens; otherwise return
the generic response and 20 tokens.  The call then sleeps for
`simulate_delay_ms tokens`. -/
def stubGenerate (promptCpp : String) : StubGenResult :=
  if containsMarker promptCpp then
    match strFind promptCpp ("Task:") with
    | some task_start =>
      ⟨classify_eisenhower (strDrop promptCpp (task_start + 5)), 50⟩
    | none => ⟨fallbackJson, 30⟩
  else ⟨genericResponse, 20⟩

/-- Top of `nativeGenerate` (lines 308-310) composed with the stub strategy:
a 0 handle (`none`) short-circuits to the empty string before the mode branch
is reached; otherwise the stub text is produced. -/
def nativeGenerateStubMode (handle : Option LlamaContext) (prompt : String) :
    String :=
  match handle with
  | none => ("")
  | some _ => (stubGenerate prompt).text

/-- Embeds `nativeUnloadModel` (lines 410-417): the wrapper is deleted only
for a non-zero handle.  The returned Bool records whether a deletion happened
(`false` for the 0-handle no-op). -/
def nativeUnloadModel (handle : Option LlamaContext) : Bool := handle.isSome

/-- Embeds `getMemoryUsage` (lines 419-424): 0 on the 0 handle. -/
def getMemoryUsage : Option LlamaContext → Nat
  | none => 0
  | some w => w.memory_usage_bytes

/-- Embeds `getLoadTimeMs` (lines 426-431). -/
def getLoadTimeMs : Option LlamaContext → Nat
  | none => 0
  | some w => w.load_time_ms

/-- Embeds `getLastInferenceTimeMs` (lines 433-438). -/
def getLastInferenceTimeMs : Option LlamaContext → Nat
  | none => 0
  | some w => w.last_inference_time_ms

/-- Embeds `getLastTokenCount` (lines 440-445). -/
def getLastTokenCount : Option LlamaContext → Nat
  | none => 0
  | some w => w.last_tokens_generated

/-- Embeds `isStubImplementation` (lines 447-452): `JNI_TRUE` on the 0
handle. -/
def isStubImplementation : Option LlamaContext → Bool
  | none => true
  | some w => w.is_stub

/-- Modelled from the spec: the quoted-task extraction convention of the spec for
simulated-mode prompts ("the last quoted substring in the prompt is the task
text").  This definition follows the words of the spec — the source has no such
extraction — and exists only to compare the claimed convention with what the
code does: the substrings between consecutive pairs of double quotes are
collected and the one enclosed by the last complete pair is returned. -/
def splitOnQuote : List Char → List (List Char)
  | [] => [[]]
  | c :: rest =>
    let r := splitOnQuote rest
    if c.toNat = 34 then [] :: r
    else
      match r with
      | [] => [[c]]
      | h :: t => (c :: h) :: t

/-- Modelled from the spec (continued): the last quoted substring of a prompt,
`none` when the prompt contains no complete pair of double quotes. -/
def specExtractLastQuoted (p : String) : Option String :=
  let parts := splitOnQuote p.data
  let pairs := (parts.length - 1) / 2
  if pairs = 0 then none
  else (parts.get? (2 * pairs - 1)).map (fun l => (⟨l⟩ : String))

/-- One iteration of the real-strategy generation loop (lines 352-371), seen
through the backend: whether the sampled token is end-of-generation, the text
piece it converts to (empty when `llama_token_to_piece` returns `n ≤ 0`), and
whether the one-token `llama_decode` succeeds.  The behaviour of the backend at the
`k`-th loop iteration of a call is abstracted as `oracle k`. -/
structure GenStep where
  isEog : Bool
  piece : String
  decodeOk : Bool

/-- How the real-strategy loop terminated: budget exhausted (`i < maxTokens`
failed), end-of-generation token sampled, or one-token decode failure. -/
inductive StopReason where
  | budget
  | eog
  | decodeFail
deriving DecidableEq

/-- Observable outcome of the real-strategy loop: accumulated `result` text,
`tokens_generated`, the number of tokens *accepted* into the context (one-token
decodes that succeeded), the final position counter `n_cur`, and the stop
reason. -/
structure GenResult where
  text : String
  tokensGenerated : Nat
  accepted : Nat
  nCur : Nat
  stop : StopReason

/-- Embeds the body of the real-strategy loop `for (int i = 0; i < maxTokens;
i++)` (lines 352-371): sample (`oracle i`); on an end-of-generation token
break; otherwise append the piece and count the token; submit the one-token
decode — on success advance `n_cur` and continue, on failure break returning
the text accumulated so far. -/
def genLoopAux (oracle : Nat → GenStep) :
    Nat → Nat → String → Nat → Nat → Nat → GenResult
  | 0, _, result, tokens_generated, accepted, n_cur =>
    ⟨result, tokens_generated, accepted, n_cur, StopReason.budget⟩
  | Nat.succ fuel, i, result, tokens_generated, accepted, n_cur =>
    let s := oracle i
    if s.isEog then
      ⟨result, tokens_generated, accepted, n_cur, StopReason.eog⟩
    else if s.decodeOk then
      genLoopAux oracle fuel (i + 1) (result ++ s.piece)
        (tokens_generated + 1) (accepted + 1) (n_cur + 1)
    else
      ⟨result ++ s.piece, tokens_generated + 1, accepted, n_cur,
       StopReason.decodeFail⟩

/-- The real-strategy generation loop of `nativeGenerate` started as the
source does: empty result, zero tokens, `n_cur = tokens.size()` (the prompt
length). -/
def nativeGenerateReal (oracle : Nat → GenStep) (promptLen maxTokens : Nat) :
    GenResult :=
  genLoopAux oracle maxTokens 0 ("") 0 0 promptLen

/-- Concatenation of the text pieces of `n` consecutive loop iterations
starting at iteration `i`. -/
def pieces (oracle : Nat → GenStep) (i : Nat) : Nat → String
  | 0 => ("")
  | Nat.succ n => (oracle i).piece ++ pieces oracle (i + 1) n

/-- The fixed closed set of quadrant labels of the verdict contract. -/
def quadrantLabels : List String :=
  [("DO"), ("SCHEDULE"), ("DELEGATE"), ("ELIMINATE")]

/-- The serialization shape asserted by the spec: a verdict JSON whose label
belongs to the closed set and whose confidence is a two-decimal rendering of a
real number in [0, 1]. -/
def VerdictShape (s : String) : Prop :=
  ∃ q c r, q ∈ quadrantLabels ∧ c ≤ 100 ∧ s = renderVerdict ⟨q, c, r⟩

lemma char_toNat_ofNat (n : Nat) (h : n < 55296) : (Char.ofNat n).toNat = n := by
  simp [Char.ofNat, Char.toNat, Nat.isValidChar, h, Char.ofNatAux]
  rfl

lemma asciiLower_idem (c : Char) : asciiLower (asciiLower c) = asciiLower c := by
  by_cases h : 65 ≤ c.toNat ∧ c.toNat ≤ 90
  · obtain ⟨h1, h2⟩ := h
    have hin : asciiLower c = Char.ofNat (c.toNat + 32) := by
      unfold asciiLower
      rw [if_pos ⟨h1, h2⟩]
    have hn : ¬ (65 ≤ (Char.ofNat (c.toNat + 32)).toNat
        ∧ (Char.ofNat (c.toNat + 32)).toNat ≤ 90) := by
      rw [char_toNat_ofNat _ (by omega)]
      omega
    rw [hin]
    unfold asciiLower
    rw [if_neg hn]
  · have hin : asciiLower c = c := by
      unfold asciiLower
      rw [if_neg h]
    rw [hin]
    exact hin

lemma map_asciiLower_idem (l : List Char) :
    (l.map asciiLower).map asciiLower = l.map asciiLower := by
  induction l with
  | nil => rfl
  | cons c t ih => simp [asciiLower_idem, ih]

lemma to_lower_idem (s : String) : to_lower (to_lower s) = to_lower s := by
  unfold to_lower
  exact congrArg String.mk (map_asciiLower_idem s.data)

lemma urgentScore_lower (t : String) : urgentScore (to_lower t) = urgentScore t := by
  unfold urgentScore
  rw [to_lower_idem]

lemma importantScore_lower (t : String) :
    importantScore (to_lower t) = importantScore t := by
  unfold importantScore
  rw [to_lower_idem]

lemma delegateScore_lower (t : String) :
    delegateScore (to_lower t) = delegateScore t := by
  unfold delegateScore
  rw [to_lower_idem]

lemma eliminateScore_lower (t : String) :
    eliminateScore (to_lower t) = eliminateScore t := by
  unfold eliminateScore
  rw [to_lower_idem]

lemma is_urgent_lower (t : String) : is_urgent (to_lower t) = is_urgent t := by
  unfold is_urgent
  rw [urgentScore_lower]

lemma is_important_lower (t : String) :
    is_important (to_lower t) = is_important t := by
  unfold is_important
  rw [importantScore_lower, urgentScore_lower]

lemma classifyV_lower (t : String) : classifyV (to_lower t) = classifyV t := by
  unfold classifyV
  rw [urgentScore_lower, importantScore_lower, delegateScore_lower,
      eliminateScore_lower, is_urgent_lower, is_important_lower]

lemma classifyV_eq_elim {t : String} (h : 70 < eliminateScore t) :
    classifyV t = ⟨("ELIMINATE"), eliminateScore t,
      ("Task appears to be low-value or time-wasting activity")⟩ := by
  unfold classifyV
  rw [if_pos h]

lemma classifyV_eq_do {t : String} (h1 : ¬ 70 < eliminateScore t)
    (h2 : is_urgent t = true) (h3 : is_important t = true) :
    classifyV t = ⟨("DO"), max (urgentScore t) (importantScore t),
      ("Task is both urgent and important - requires immediate attention")⟩ := by
  simp [classifyV, h1, h2, h3]

lemma classifyV_eq_schedule {t : String} (h1 : ¬ 70 < eliminateScore t)
    (h2 : is_urgent t = false) (h3 : is_important t = true) :
    classifyV t = ⟨("SCHEDULE"), importantScore t,
      ("Task is important but not time-sensitive - schedule for focused work")⟩ := by
  simp [classifyV, h1, h2, h3]

lemma classifyV_eq_delegate_urgent {t : String} (h1 : ¬ 70 < eliminateScore t)
    (h2 : is_urgent t = true) (h3 : is_important t = false) :
    classifyV t = ⟨("DELEGATE"), max (urgentScore t) (delegateScore t),
      ("Task is urgent but not personally important - consider delegation")⟩ := by
  simp [classifyV, h1, h2, h3]

lemma classifyV_eq_delegate_routine {t : String} (h1 : ¬ 70 < eliminateScore t)
    (h2 : is_urgent t = false) (h3 : is_important t = false)
    (h4 : 50 < delegateScore t) :
    classifyV t = ⟨("DELEGATE"), delegateScore t,
      ("Routine task that can be handled by others")⟩ := by
  simp [classifyV, h1, h2, h3, h4]

lemma classifyV_eq_default {t : String} (h1 : ¬ 70 < eliminateScore t)
    (h2 : is_urgent t = false) (h3 : is_important t = false)
    (h4 : ¬ 50 < delegateScore t) :
    classifyV t = ⟨("SCHEDULE"), 60,
      ("Task importance unclear - scheduling for review")⟩ := by
  simp [classifyV, h1, h2, h3, h4]

/-- C1, counterexample to the claim as stated: `"maybe"` is an
eliminate-pattern literal contained in the (normalized) input `"maybe"`, yet
`classify` resolves that input to SCHEDULE, not ELIMINATE — containing an
eliminate literal does not by itself make rule 1 fire, because the rule tests
`eliminate_score > 0.7` and the `maybe` pattern only scores 0.65. -/
theorem eliminate_literal_not_sufficient :
    (("maybe"), 65) ∈ ELIMINATE_PATTERNS
    ∧ contains ("maybe") ("maybe") = true
    ∧ (classifyV ("maybe")).quadrant = ("SCHEDULE")
    ∧ (classifyV ("maybe")).quadrant ≠ ("ELIMINATE") :=
  ⟨by decide, by decide, by decide, by decide⟩

/-- C1 (amended): whenever the eliminate/low-value signal fires — that is,
the maximum confidence among the matched eliminate patterns exceeds 0.70 —
the classifier returns quadrant ELIMINATE regardless of which other signals
fire, with the eliminate score as confidence; rule 1 wins outright. -/
theorem eliminate_signal_wins (t : String) (h : 70 < eliminateScore t) :
    (classifyV t).quadrant = ("ELIMINATE")
    ∧ (classifyV t).confidence = eliminateScore t := by
  rw [classifyV_eq_elim h]
  exact ⟨rfl, rfl⟩

/-- Witness for `eliminate_signal_wins`: the example text of the spec itself contains
both an urgent+important signal and an eliminate signal and resolves to
ELIMINATE. -/
theorem eliminate_signal_wins_witness :
    70 < eliminateScore ("urgent client deadline today, browsing social media")
    ∧ (classifyV ("urgent client deadline today, browsing social media")).quadrant
      = ("ELIMINATE") :=
  ⟨by decide,
   (eliminate_signal_wins ("urgent client deadline today, browsing social media")
     (by decide)).1⟩

/-- C3, counterexample to the claim as stated: ELIMINATE does not always carry
confidence 0.85 — on input `"social media"` the classifier returns ELIMINATE
with confidence 0.90 (the score of the matched pattern), serialized as `0.90`. -/
theorem confidence_not_fixed :
    (classifyV ("social media")).quadrant = ("ELIMINATE")
    ∧ (classifyV ("social media")).confidence = 90
    ∧ (classifyV ("social media")).confidence ≠ 85
    ∧ classify_eisenhower ("social media")
      = ("\x7b\"quadrant\": \"ELIMINATE\", \"confidence\": 0.90, \"reasoning\": \"Task appears to be low-value or time-wasting activity\"\x7d") :=
  ⟨by decide, by decide, by decide, by decide⟩

/-- C3 (amended): the confidence of each rule is the matched signal score, not a
fixed constant — ELIMINATE carries the eliminate score, DO the maximum of the
urgent and important scores, the important-not-urgent SCHEDULE rule the
important score, the two DELEGATE rules `max(urgent, delegate)` resp. the
delegate score — and only the default rule is fixed, at SCHEDULE with
confidence 0.60; in particular `classify("buy milk")` yields SCHEDULE, 0.60. -/
theorem confidence_equals_matched_score (t : String) :
    (70 < eliminateScore t → (classifyV t).confidence = eliminateScore t)
    ∧ (¬ 70 < eliminateScore t → is_urgent t = true → is_important t = true →
        (classifyV t).confidence = max (urgentScore t) (importantScore t))
    ∧ (¬ 70 < eliminateScore t → is_urgent t = false → is_important t = true →
        (classifyV t).confidence = importantScore t)
    ∧ (¬ 70 < eliminateScore t → is_urgent t = true → is_important t = false →
        (classifyV t).confidence = max (urgentScore t) (delegateScore t))
    ∧ (¬ 70 < eliminateScore t → is_urgent t = false → is_important t = false →
        50 < delegateScore t → (classifyV t).confidence = delegateScore t)
    ∧ (¬ 70 < eliminateScore t → is_urgent t = false → is_important t = false →
        ¬ 50 < delegateScore t →
        classifyV t = ⟨("SCHEDULE"), 60,
          ("Task importance unclear - scheduling for review")⟩)
    ∧ classifyV ("buy milk")
      = ⟨("SCHEDULE"), 60, ("Task importance unclear - scheduling for review")⟩ := by
  refine ⟨?_, ?_, ?_, ?_, ?_, ?_, by decide⟩
  · intro h
    rw [classifyV_eq_elim h]
  · intro h1 h2 h3
    rw [classifyV_eq_do h1 h2 h3]
  · intro h1 h2 h3
    rw [classifyV_eq_schedule h1 h2 h3]
  · intro h1 h2 h3
    rw [classifyV_eq_delegate_urgent h1 h2 h3]
  · intro h1 h2 h3 h4
    rw [classifyV_eq_delegate_routine h1 h2 h3 h4]
  · intro h1 h2 h3 h4
    exact classifyV_eq_default h1 h2 h3 h4

/-- Witness for `confidence_equals_matched_score`: the ELIMINATE conjunct
applied at `"social media"`. -/
theorem confidence_equals_matched_score_witness :
    70 < eliminateScore ("social media")
    ∧ (classifyV ("social media")).confidence = eliminateScore ("social media") :=
  ⟨by decide, (confidence_equals_matched_score ("social media")).1 (by decide)⟩

/-- C9 (confirmed): the classifier is pure and deterministic — classifying the
same text twice yields identical verdicts — and case-insensitive: classifying
a text and its lowercase normalization yield identical serialized verdicts; in
particular the example pair of the spec agrees. -/
theorem classifier_deterministic_case_insensitive (t : String) :
    classify_eisenhower t = classify_eisenhower t
    ∧ classify_eisenhower t = classify_eisenhower (to_lower t)
    ∧ classify_eisenhower ("URGENT client meeting")
      = classify_eisenhower ("urgent client meeting") := by
  refine ⟨rfl, ?_, by decide⟩
  unfold classify_eisenhower
  rw [classifyV_lower]

/-- C10 (confirmed, implicit): an urgency score strictly above 0.8 makes the
task count as important by itself, so when the eliminate signal does not fire
the classifier returns DO even if no importance pattern matched; consequently
the urgent-but-not-important DELEGATE outcome is reachable only for urgency
scores in (0.5, 0.8]. -/
theorem high_urgency_implies_do (t : String) :
    (80 < urgentScore t → eliminateScore t ≤ 70 →
      (classifyV t).quadrant = ("DO"))
    ∧ ((classifyV t).quadrant = ("DELEGATE") → 50 < urgentScore t →
        50 < urgentScore t ∧ urgentScore t ≤ 80) := by
  constructor
  · intro hu he
    have h1 : ¬ 70 < eliminateScore t := by omega
    have h2 : is_urgent t = true := by
      unfold is_urgent
      simp only [decide_eq_true_eq]
      omega
    have h3 : is_important t = true := by
      unfold is_important
      simp only [Bool.or_eq_true, decide_eq_true_eq]
      right
      exact hu
    rw [classifyV_eq_do h1 h2 h3]
  · intro hq hu
    refine ⟨hu, ?_⟩
    by_contra hgt
    push_neg at hgt
    have h2 : is_urgent t = true := by
      unfold is_urgent
      simp only [decide_eq_true_eq]
      omega
    have h3 : is_important t = true := by
      unfold is_important
      simp only [Bool.or_eq_true, decide_eq_true_eq]
      right
      omega
    by_cases he : 70 < eliminateScore t
    · rw [classifyV_eq_elim he] at hq
      simp at hq
    · rw [classifyV_eq_do he h2 h3] at hq
      simp at hq

/-- Witness for `high_urgency_implies_do`: `"emergency"` scores 0.95 urgency,
matches no importance pattern, and classifies as DO. -/
theorem high_urgency_implies_do_witness :
    80 < urgentScore ("emergency")
    ∧ eliminateScore ("emergency") ≤ 70
    ∧ importantScore ("emergency") = 0
    ∧ (classifyV ("emergency")).quadrant = ("DO") :=
  ⟨by decide, by decide, by decide,
   (high_urgency_implies_do ("emergency")).1 (by decide) (by decide)⟩

/-- C2, counterexample to the claim as stated: on the classification prompt
`quadrant "browse" Task: emergency` the engine does not classify the last
quoted substring (`browse`, which would yield ELIMINATE) — it classifies the
suffix after the first `Task:` marker (` emergency`, which yields DO). -/
theorem task_extraction_not_last_quoted :
    containsMarker ("quadrant \"browse\" Task: emergency") = true
    ∧ specExtractLastQuoted ("quadrant \"browse\" Task: emergency")
      = some ("browse")
    ∧ (stubGenerate ("quadrant \"browse\" Task: emergency")).text
      = classify_eisenhower (" emergency")
    ∧ (stubGenerate ("quadrant \"browse\" Task: emergency")).text
      ≠ classify_eisenhower ("browse") :=
  ⟨by decide, by decide, by decide, by decide⟩

/-- C2 (amended): on every prompt carrying a classification marker the engine
locates the first occurrence of the literal `Task:`, classifies the verbatim
suffix after it (reporting 50 tokens); when the marker prompt has no `Task:`
substring it does not classify anything, returning the fixed fallback JSON
and 30 tokens — either way the path produces a result. -/
theorem task_extraction_after_marker (p : String)
    (hm : containsMarker p = true) :
    (∀ i, strFind p ("Task:") = some i →
      (stubGenerate p).text = classify_eisenhower (strDrop p (i + 5))
      ∧ (stubGenerate p).tokens = 50)
    ∧ (strFind p ("Task:") = none →
      (stubGenerate p).text = fallbackJson ∧ (stubGenerate p).tokens = 30) := by
  constructor
  · intro i hi
    simp [stubGenerate, hm, hi]
  · intro hn
    simp [stubGenerate, hm, hn]

/-- Witness for `task_extraction_after_marker`: a concrete marker prompt whose
`Task:` marker sits at index 9, so the suffix from index 14 is classified. -/
theorem task_extraction_after_marker_witness :
    containsMarker ("quadrant Task: social media") = true
    ∧ strFind ("quadrant Task: social media") ("Task:") = some 9
    ∧ (stubGenerate ("quadrant Task: social media")).text
      = classify_eisenhower (strDrop ("quadrant Task: social media") 14) :=
  ⟨by decide, by decide,
   ((task_extraction_after_marker ("quadrant Task: social media")
     (by decide)).1 9 (by decide)).1⟩

/-- C5, counterexample to the claim as stated: simulated-mode load with an
unreadable path does not fail — it still returns a (non-zero) handle. -/
theorem stub_load_ignores_readability :
    nativeLoadModelStub false SIMULATED_LOAD_TIME_MS ≠ none
    ∧ (nativeLoadModelStub false SIMULATED_LOAD_TIME_MS).isSome = true := by
  constructor
  · simp [nativeLoadModelStub]
  · rfl

/-- C5 (amended): simulated-mode load never validates path readability: for
every path, readable or not, it returns a non-zero handle marked as a stub
carrying the fixed 2.4 GB footprint — `FileUnreadable` is never produced on
this path. -/
theorem stub_load_always_succeeds (pathReadable : Bool) (elapsedMs : Nat) :
    ∃ w, nativeLoadModelStub pathReadable elapsedMs = some w
      ∧ w.is_stub = true
      ∧ w.memory_usage_bytes = SIMULATED_MODEL_SIZE
      ∧ isStubImplementation (nativeLoadModelStub pathReadable elapsedMs) = true :=
  ⟨_, rfl, rfl, rfl, rfl⟩

/-- C6, counterexample to the claim as stated: the prompt `quadrant` carries a
classification marker, yet its reported token count is 30 (the no-`Task:`
fallback), not the claimed 50. -/
theorem marker_without_task_tokens_30 :
    containsMarker ("quadrant") = true
    ∧ strFind ("quadrant") ("Task:") = none
    ∧ (stubGenerate ("quadrant")).tokens = 30
    ∧ (stubGenerate ("quadrant")).tokens ≠ 50 :=
  ⟨by decide, by decide, by decide, by decide⟩

/-- C6 (amended): the reported token count is 50 for classification-marker
prompts containing `Task:`, 30 for classification-marker prompts without
`Task:`, and 20 for generic prompts; the simulated sleep is always
`tokens * 1000 / 18` milliseconds in integer arithmetic. -/
theorem stub_token_accounting (p : String) :
    (stubGenerate p).tokens
      = (if containsMarker p then
          (if (strFind p ("Task:")).isSome then 50 else 30)
         else 20)
    ∧ simulate_delay_ms ((stubGenerate p).tokens)
      = ((stubGenerate p).tokens) * 1000 / 18 := by
  constructor
  · cases hm : containsMarker p with
    | true =>
      cases hi : strFind p ("Task:") with
      | none => simp [stubGenerate, hm, hi]
      | some i => simp [stubGenerate, hm, hi]
    | false => simp [stubGenerate, hm]
  · rfl

/-- C7 (confirmed): every boundary operation degrades gracefully on the 0
handle — generation returns empty text, unload deletes nothing, all numeric
accessors return 0, and `isStubImplementation` reports true. -/
theorem invalid_handle_defaults (p : String) :
    nativeGenerateStubMode none p = ("")
    ∧ nativeUnloadModel none = false
    ∧ getMemoryUsage none = 0
    ∧ getLoadTimeMs none = 0
    ∧ getLastInferenceTimeMs none = 0
    ∧ getLastTokenCount none = 0
    ∧ isStubImplementation none = true :=
  ⟨rfl, rfl, rfl, rfl, rfl, rfl, rfl⟩

lemma genLoopAux_spec (o : Nat → GenStep) (fuel : Nat) :
    ∀ (i : Nat) (res : String) (tg acc nc : Nat) (r : GenResult),
      r = genLoopAux o fuel i res tg acc nc →
      tg ≤ r.tokensGenerated
      ∧ r.tokensGenerated ≤ tg + fuel
      ∧ (r.stop = StopReason.budget → r.tokensGenerated = tg + fuel)
      ∧ (r.stop = StopReason.eog → r.tokensGenerated < tg + fuel
          ∧ (o (i + (r.tokensGenerated - tg))).isEog = true)
      ∧ (r.stop = StopReason.decodeFail →
          (o (i + (r.tokensGenerated - tg) - 1)).decodeOk = false)
      ∧ r.nCur + acc = nc + r.accepted
      ∧ acc ≤ r.accepted
      ∧ r.tokensGenerated + acc = tg + r.accepted
          + (if r.stop = StopReason.decodeFail then 1 else 0)
      ∧ r.text = res ++ pieces o i (r.tokensGenerated - tg) := by
  induction fuel with
  | zero =>
    intro i res tg acc nc r hr
    subst hr
    simp [genLoopAux, pieces]
  | succ f ih =>
    intro i res tg acc nc r hr
    by_cases he : (o i).isEog = true
    · have hr2 : r = ⟨res, tg, acc, nc, StopReason.eog⟩ := by
        rw [hr]
        simp [genLoopAux, he]
      subst hr2
      refine ⟨le_refl _, by dsimp only; omega, by simp, ?_, by simp,
        by dsimp only, le_refl _, by simp, ?_⟩
      · intro _
        refine ⟨by dsimp only; omega, ?_⟩
        dsimp only
        simpa using he
      · dsimp only
        simp [pieces]
    · by_cases hdec : (o i).decodeOk = true
      · have hr2 : r = genLoopAux o f (i + 1) (res ++ (o i).piece)
            (tg + 1) (acc + 1) (nc + 1) := by
          rw [hr]
          simp [genLoopAux, he, hdec]
        obtain ⟨ih1, ih2, ih3, ih4, ih5, ih6, ih7, ih8, ih9⟩ :=
          ih (i + 1) (res ++ (o i).piece) (tg + 1) (acc + 1) (nc + 1) r hr2
        refine ⟨by omega, by omega, ?_, ?_, ?_, by omega, by omega, by omega, ?_⟩
        · intro h
          have := ih3 h
          omega
        · intro h
          obtain ⟨ha, hb⟩ := ih4 h
          refine ⟨by omega, ?_⟩
          have hidx : i + 1 + (r.tokensGenerated - (tg + 1))
              = i + (r.tokensGenerated - tg) := by omega
          rw [← hidx]
          exact hb
        · intro h
          have hb := ih5 h
          have hidx : i + 1 + (r.tokensGenerated - (tg + 1)) - 1
              = i + (r.tokensGenerated - tg) - 1 := by omega
          rw [← hidx]
          exact hb
        · have hstep : r.tokensGenerated - tg = (r.tokensGenerated - (tg + 1)) + 1 := by
            omega
          rw [ih9, hstep]
          simp [pieces, String.append_assoc]
      · have hr2 : r = ⟨res ++ (o i).piece, tg + 1, acc, nc, StopReason.decodeFail⟩ := by
          rw [hr]
          simp [genLoopAux, he, hdec]
        subst hr2
        refine ⟨by dsimp only; omega, by dsimp only; omega, by simp, by simp, ?_,
          by dsimp only, le_refl _, ?_, ?_⟩
        · intro _
          dsimp only
          have hidx : i + (tg + 1 - tg) - 1 = i := by omega
          rw [hidx]
          simpa using hdec
        · dsimp only
          rw [if_pos rfl]
          omega
        · dsimp only
          have hone : tg + 1 - tg = 1 := by omega
          rw [hone]
          simp [pieces]

/-- C4 (confirmed): the real-strategy loop emits at most `maxTokens` tokens;
it stops before exhausting the budget exactly when an end-of-generation token
is sampled or a one-token decode fails (and in those cases the oracle step it
stopped at indeed was an end-of-generation sample resp. a failed decode); the
position counter always equals the prompt length plus the number of accepted
(successfully decoded) tokens; the emitted count exceeds the accepted count
only by the single token whose decode failed; and the returned text is the
concatenation of all emitted pieces — in particular a decode failure still
returns the partial output. -/
theorem real_loop_spec (o : Nat → GenStep) (promptLen maxTokens : Nat) :
    (nativeGenerateReal o promptLen maxTokens).tokensGenerated ≤ maxTokens
    ∧ ((nativeGenerateReal o promptLen maxTokens).tokensGenerated < maxTokens →
        (nativeGenerateReal o promptLen maxTokens).stop = StopReason.eog
        ∨ (nativeGenerateReal o promptLen maxTokens).stop = StopReason.decodeFail)
    ∧ ((nativeGenerateReal o promptLen maxTokens).stop = StopReason.budget →
        (nativeGenerateReal o promptLen maxTokens).tokensGenerated = maxTokens)
    ∧ ((nativeGenerateReal o promptLen maxTokens).stop = StopReason.eog →
        (nativeGenerateReal o promptLen maxTokens).tokensGenerated < maxTokens
        ∧ (o (nativeGenerateReal o promptLen maxTokens).tokensGenerated).isEog = true)
    ∧ ((nativeGenerateReal o promptLen maxTokens).stop = StopReason.decodeFail →
        (o ((nativeGenerateReal o promptLen maxTokens).tokensGenerated - 1)).decodeOk
          = false)
    ∧ (nativeGenerateReal o promptLen maxTokens).nCur
        = promptLen + (nativeGenerateReal o promptLen maxTokens).accepted
    ∧ (nativeGenerateReal o promptLen maxTokens).tokensGenerated
        = (nativeGenerateReal o promptLen maxTokens).accepted
          + (if (nativeGenerateReal o promptLen maxTokens).stop = StopReason.decodeFail
             then 1 else 0)
    ∧ (nativeGenerateReal o promptLen maxTokens).text
        = pieces o 0 (nativeGenerateReal o promptLen maxTokens).tokensGenerated := by
  obtain ⟨h1, h2, h3, h4, h5, h6, h7, h8, h9⟩ :=
    genLoopAux_spec o maxTokens 0 ("") 0 0 promptLen
      (nativeGenerateReal o promptLen maxTokens) rfl
  refine ⟨by omega, ?_, by intro h; have := h3 h; omega, ?_, ?_, by omega, ?_, ?_⟩
  · intro hlt
    cases hst : (nativeGenerateReal o promptLen maxTokens).stop with
    | budget =>
      have := h3 hst
      omega
    | eog => exact Or.inl rfl
    | decodeFail => exact Or.inr rfl
  · intro h
    obtain ⟨ha, hb⟩ := h4 h
    refine ⟨by omega, ?_⟩
    simpa using hb
  · intro h
    simpa using h5 h
  · have := h8
    omega
  · rw [h9]
    simp

/-- Witness for `real_loop_spec`: a concrete backend oracle that never ends
generation and always decodes, with a 3-token prompt and a 2-token budget. -/
theorem real_loop_spec_witness :
    (nativeGenerateReal (fun _ => ⟨false, ("a"), true⟩) 3 2).tokensGenerated = 2
    ∧ (nativeGenerateReal (fun _ => ⟨false, ("a"), true⟩) 3 2).nCur
      = 3 + (nativeGenerateReal (fun _ => ⟨false, ("a"), true⟩) 3 2).accepted :=
  ⟨rfl, (real_loop_spec (fun _ => ⟨false, ("a"), true⟩) 3 2).2.2.2.2.2.1⟩

lemma foldl_score_le (text : String) (n : Nat) :
    ∀ (pats : List (String × Nat)) (acc : Nat), acc ≤ n →
      (∀ p ∈ pats, p.2 ≤ n) →
      pats.foldl (fun a p => if contains text p.1 then max a p.2 else a) acc ≤ n := by
  intro pats
  induction pats with
  | nil =>
    intro acc hacc _
    simpa using hacc
  | cons p t ih =>
    intro acc hacc hp
    simp only [List.foldl_cons]
    apply ih
    · by_cases hc : contains text p.1 = true
      · rw [if_pos hc]
        exact max_le hacc (hp p (List.mem_cons_self p t))
      · rw [if_neg hc]
        exact hacc
    · intro q hq
      exact hp q (List.mem_cons_of_mem p hq)

lemma maxScore_le (pats : List (String × Nat)) (text : String) (n : Nat)
    (hp : ∀ p ∈ pats, p.2 ≤ n) : maxScore pats text ≤ n :=
  foldl_score_le text n pats 0 (Nat.zero_le n) hp

lemma classifyV_mem_le (t : String) :
    (classifyV t).quadrant ∈ quadrantLabels ∧ (classifyV t).confidence ≤ 100 := by
  have hu : urgentScore t ≤ 100 :=
    maxScore_le URGENT_PATTERNS (to_lower t) 100 (by decide)
  have hi : importantScore t ≤ 100 :=
    maxScore_le IMPORTANT_PATTERNS (to_lower t) 100 (by decide)
  have hd : delegateScore t ≤ 100 :=
    maxScore_le DELEGATE_PATTERNS (to_lower t) 100 (by decide)
  have he : eliminateScore t ≤ 100 :=
    maxScore_le ELIMINATE_PATTERNS (to_lower t) 100 (by decide)
  unfold classifyV
  split
  · exact ⟨show ("ELIMINATE") ∈ quadrantLabels by decide, he⟩
  · split
    · exact ⟨show ("DO") ∈ quadrantLabels by decide, max_le hu hi⟩
    · split
      · exact ⟨show ("SCHEDULE") ∈ quadrantLabels by decide, hi⟩
      · split
        · exact ⟨show ("DELEGATE") ∈ quadrantLabels by decide, max_le hu hd⟩
        · split
          · exact ⟨show ("DELEGATE") ∈ quadrantLabels by decide, hd⟩
          · exact ⟨show ("SCHEDULE") ∈ quadrantLabels by decide, by dsimp only; omega⟩

/-- C8 (amended): every classifier-produced verdict — in particular every
`Task:`-extraction output of the simulated strategy — serializes in the exact
claimed shape: the quadrant is one of the four closed labels and the
confidence is a two-decimal rendering of a value in [0, 1].  (The fixed
no-`Task:` fallback string violates the two-decimal part; see the
counterexample.) -/
theorem classifier_output_shape (t : String) :
    VerdictShape (classify_eisenhower t) := by
  obtain ⟨hm, hc⟩ := classifyV_mem_le t
  exact ⟨(classifyV t).quadrant, (classifyV t).confidence, (classifyV t).reasoning,
    hm, hc, rfl⟩

/-- C8, counterexample to the claim as stated: the extraction-fallback output
(produced e.g. for the marker prompt `quadrant`, which has no `Task:`) is the
fixed string whose confidence field reads `0.5` — one decimal place — so it is
not of the claimed two-decimal verdict shape for any label and any confidence
in [0, 1]. -/
theorem fallback_not_two_decimal :
    (stubGenerate ("quadrant")).text = fallbackJson
    ∧ ¬ VerdictShape fallbackJson := by
  refine ⟨by decide, ?_⟩
  rintro ⟨q, c, r, hq, hc, heq⟩
  have hd := congrArg String.data heq
  dsimp only [renderVerdict] at hd
  simp only [String.data_append, List.append_assoc] at hd
  simp [quadrantLabels] at hq
  rcases hq with rfl | rfl | rfl | rfl
  · rw [← List.append_assoc] at hd
    have hpre : (("\x7b\"quadrant\": \"").data ++ ("DO").data) <+: fallbackJson.data :=
      ⟨_, hd.symm⟩
    exact absurd hpre (by decide)
  · rw [← List.append_assoc, ← List.append_assoc, ← List.append_assoc] at hd
    have hpre : ((("\x7b\"quadrant\": \"").data ++ ("SCHEDULE").data
        ++ ("\", \"confidence\": ").data) ++ (renderConf c).data)
        <+: fallbackJson.data := ⟨_, hd.symm⟩
    have hball : ∀ n, n ≤ 100 →
        ¬ (((("\x7b\"quadrant\": \"").data ++ ("SCHEDULE").data
            ++ ("\", \"confidence\": ").data) ++ (renderConf n).data)
           <+: fallbackJson.data) := by decide
    exact absurd hpre (hball c hc)
  · rw [← List.append_assoc] at hd
    have hpre : (("\x7b\"quadrant\": \"").data ++ ("DELEGATE").data) <+: fallbackJson.data :=
      ⟨_, hd.symm⟩
    exact absurd hpre (by decide)
  · rw [← List.append_assoc] at hd
    have hpre : (("\x7b\"quadrant\": \"").data ++ ("ELIMINATE").data) <+: fallbackJson.data :=
      ⟨_, hd.symm⟩
    exact absurd hpre (by decide)
